import Mathlib

/-!
Shallow embedding of the cntp_nodeverse automation core:
the task orchestrator and retry state machine (node_handler/automationManager.js),
the CNTP check-value coercion (CNTP.js), the proxy validator worker pool
(proxy_handler/worker.js, proxy_handler/assign_proxy.js "main" half), the proxy
assignment stage (proxy_handler/assign_proxy.js), and the staggered work
scheduler (AutomationManager.run).

Browser, network and filesystem effects are modelled as oracles/parameters;
the durable SQLite store is modelled as explicit state (an optional task row
for the single (key, proxy, 'cntp') task the orchestrator manipulates, and a
list of rows for the filtered_proxies table).
-/

namespace Cntp

/-! ## Configuration constants (node_handler/config.js) -/

/-- config.js line 122: `const MAX_LOGIN_RETRIES = 2`. -/
def MAX_LOGIN_RETRIES : Nat := 2

/-- config.js line 123: `const PROFILE_CLEANUP_ON_FAILURE = true`. -/
def PROFILE_CLEANUP_ON_FAILURE : Bool := true

/-- config.js line 125: `const STAGGER_DELAY = 45000` (milliseconds). -/
def STAGGER_DELAY : Nat := 45000

/-- assign_proxy.js line 158: `const PROXY_CHUNK_SIZE = 10`. -/
def PROXY_CHUNK_SIZE : Nat := 10

/-! ## Task rows (table task_monitoring, service = 'cntp') -/

/-- The `state` column of a task_monitoring row. -/
inductive TaskState
  | pending
  | success
  | failed
deriving DecidableEq, Repr

/-- One task_monitoring row for a fixed (key_id, proxy, 'cntp') key:
the columns the orchestrator reads and writes. -/
structure TaskRow where
  state : TaskState
  retry_count : Nat
  point : Int
deriving DecidableEq, Repr

/-- `initializeCNTPTask` (automationManager.js lines 142-161): insert a
('pending', 0, 0) row iff none exists for the key. -/
def initializeCNTPTask (row : Option TaskRow) : Option TaskRow :=
  match row with
  | none => some ⟨TaskState.pending, 0, 0⟩
  | some r => some r

/-- `getCNTPTaskState` (lines 166-179): the row's state, or null when absent. -/
def getCNTPTaskState (row : Option TaskRow) : Option TaskState :=
  row.map TaskRow.state

/-- `updateCNTPTaskState` (lines 184-199): UPDATE of state and point (and
timestamp) on the existing row; a missing row makes the UPDATE a no-op. -/
def updateCNTPTaskState (row : Option TaskRow) (newState : TaskState)
    (point : Int) : Option TaskRow :=
  match row with
  | none => none
  | some r => some { r with state := newState, point := point }

/-- One entry of the fail_tasks.json failure log
(`logFailedTask`, lines 269-277). -/
structure FailRecord where
  key : String
  proxy : String
  service : String
deriving DecidableEq, Repr

/-- `logFailedTask` (lines 269-277): read the log, push one entry for
(the_key, proxy, 'cntp'), write it back. -/
def logFailedTask (the_key proxy : String) (data : List FailRecord) :
    List FailRecord :=
  data ++ [⟨the_key, proxy, "cntp"⟩]

/-- Result of `tokenPlugin.check` (tokenHandler.js lines 134-145): a number,
or the literal `false` (returned on a caught error or by CNTPService.check's
own catch). -/
inductive CheckResult
  | num (n : Int)
  | fls
deriving DecidableEq, Repr

/-- The external capabilities one (key, proxy) attempt consumes:
the result of the i-th `tokenPlugin.login` call (tokenPlugin.login catches
internally and returns a Bool, never throws), the `tokenPlugin.check` result,
and whether `initializeDriver` (session creation) throws a fatal error. -/
structure Env where
  login : Nat → Bool
  check : CheckResult
  driverFails : Bool

/-- The login retry loop of `handleKeyProxyTask` (lines 100-110):
while not loginSuccess and loginAttempts < MAX_LOGIN_RETRIES, call login;
a false result increments loginAttempts. `callIdx` counts login calls made
so far (it always equals loginAttempts at the loop head, since every counted
call failed), `remaining` is MAX_LOGIN_RETRIES - loginAttempts. Returns
(loginSuccess, total number of login calls). -/
def loginLoop (login : Nat → Bool) : Nat → Nat → Bool × Nat
  | callIdx, 0 => (false, callIdx)
  | callIdx, remaining + 1 =>
    if login callIdx then (true, callIdx + 1)
    else loginLoop login (callIdx + 1) remaining

/-- Observable outcome of one `handleKeyProxyTask` invocation: the task row
afterwards, the failure log afterwards, how many login/check calls were
issued, and whether `handleCleanup` removed the profile directory. -/
structure Outcome where
  row : Option TaskRow
  failLog : List FailRecord
  loginCalls : Nat
  checkCalls : Nat
  profileDeleted : Bool
deriving Repr

/-- `handleKeyProxyTask` (automationManager.js lines 78-137), parametrised by
the two config constants it reads. Steps: ensure the task row exists; skip
terminal rows; otherwise create the driver (a throw lands in the catch block,
which runs `handleCleanup` and leaves the row and log untouched); run the
login retry loop; on exhaustion mark failed/0 and append a failure record;
otherwise run one check: `false` marks failed/0 with a failure record, a
number n marks success with point = n. -/
def handleKeyProxyTask (maxRetries : Nat) (cleanupOnFailure : Bool)
    (env : Env) (the_key proxy : String) (row0 : Option TaskRow)
    (log0 : List FailRecord) : Outcome :=
  let row := initializeCNTPTask row0
  let state := getCNTPTaskState row
  if state = some TaskState.success ∨ state = some TaskState.failed then
    ⟨row, log0, 0, 0, false⟩
  else if env.driverFails then
    ⟨row, log0, 0, 0, cleanupOnFailure⟩
  else
    let res := loginLoop env.login 0 maxRetries
    if !res.1 then
      ⟨updateCNTPTaskState row TaskState.failed 0,
       logFailedTask the_key proxy log0, res.2, 0, false⟩
    else
      match env.check with
      | CheckResult.fls =>
        ⟨updateCNTPTaskState row TaskState.failed 0,
         logFailedTask the_key proxy log0, res.2, 1, false⟩
      | CheckResult.num n =>
        ⟨updateCNTPTaskState row TaskState.success n, log0, res.2, 1, false⟩

/-! ## C1: terminal tasks are skipped idempotently -/

/-- C1: for a task row already in state 'success' or 'failed',
`handleKeyProxyTask` returns without issuing any login or check call and
leaves the stored state and point (indeed the whole row) and the failure log
unchanged. -/
theorem handleKeyProxyTask_terminal_skip (env : Env) (the_key proxy : String)
    (r : TaskRow) (log0 : List FailRecord)
    (h : r.state = TaskState.success ∨ r.state = TaskState.failed) :
    handleKeyProxyTask MAX_LOGIN_RETRIES PROFILE_CLEANUP_ON_FAILURE env
      the_key proxy (some r) log0 = ⟨some r, log0, 0, 0, false⟩ := by
  rcases h with h | h <;>
    simp [handleKeyProxyTask, initializeCNTPTask, getCNTPTaskState, h]

/-- Witness for C1 at a concrete env and a concrete 'success' row. -/
theorem handleKeyProxyTask_terminal_skip_witness :
    (TaskState.success = TaskState.success ∨
      TaskState.success = TaskState.failed) ∧
    handleKeyProxyTask MAX_LOGIN_RETRIES PROFILE_CLEANUP_ON_FAILURE
      ⟨fun _ => false, CheckResult.fls, false⟩ "key1" "host:1"
      (some ⟨TaskState.success, 0, 5⟩) [] =
      ⟨some ⟨TaskState.success, 0, 5⟩, [], 0, 0, false⟩ :=
  ⟨Or.inl rfl,
   handleKeyProxyTask_terminal_skip ⟨fun _ => false, CheckResult.fls, false⟩
     "key1" "host:1" ⟨TaskState.success, 0, 5⟩ [] (Or.inl rfl)⟩

/-! ## C2: login exhaustion -/

/-- C2: for a non-terminal task whose login capability returns false on every
call (and no fatal driver error), `handleKeyProxyTask` calls login exactly
MAX_LOGIN_RETRIES = 2 times, issues no check call, sets the row to 'failed'
with point = 0, and appends exactly one failure record. -/
theorem handleKeyProxyTask_login_exhaustion (env : Env)
    (the_key proxy : String) (r : TaskRow) (log0 : List FailRecord)
    (hpend : r.state = TaskState.pending)
    (hlogin : ∀ n, env.login n = false) (hdrv : env.driverFails = false) :
    handleKeyProxyTask MAX_LOGIN_RETRIES PROFILE_CLEANUP_ON_FAILURE env
      the_key proxy (some r) log0 =
      ⟨some ⟨TaskState.failed, r.retry_count, 0⟩,
       log0 ++ [⟨the_key, proxy, "cntp"⟩], MAX_LOGIN_RETRIES, 0, false⟩ := by
  simp [handleKeyProxyTask, initializeCNTPTask, getCNTPTaskState,
    updateCNTPTaskState, logFailedTask, MAX_LOGIN_RETRIES, loginLoop,
    hpend, hlogin, hdrv]

/-- Witness for C2 at a concrete always-false login env and a pending row. -/
theorem handleKeyProxyTask_login_exhaustion_witness :
    (TaskState.pending = TaskState.pending ∧
      (∀ n, (⟨fun _ => false, CheckResult.fls, false⟩ : Env).login n = false) ∧
      (⟨fun _ => false, CheckResult.fls, false⟩ : Env).driverFails = false) ∧
    handleKeyProxyTask MAX_LOGIN_RETRIES PROFILE_CLEANUP_ON_FAILURE
      ⟨fun _ => false, CheckResult.fls, false⟩ "key1" "host:1"
      (some ⟨TaskState.pending, 0, 0⟩) [] =
      ⟨some ⟨TaskState.failed, 0, 0⟩, [⟨"key1", "host:1", "cntp"⟩],
       MAX_LOGIN_RETRIES, 0, false⟩ :=
  ⟨⟨rfl, fun _ => rfl, rfl⟩,
   handleKeyProxyTask_login_exhaustion
     ⟨fun _ => false, CheckResult.fls, false⟩ "key1" "host:1"
     ⟨TaskState.pending, 0, 0⟩ [] rfl (fun _ => rfl) rfl⟩

/-! ## C3: success on the second login attempt, check returns 37 -/

/-- C3: for a non-terminal task whose login fails on the first call and
succeeds on the second, and whose check returns 37, `handleKeyProxyTask`
calls login exactly twice and check exactly once, and sets the row to
'success' with point = 37 (no failure record appended). -/
theorem handleKeyProxyTask_login_second_try_success (env : Env)
    (the_key proxy : String) (r : TaskRow) (log0 : List FailRecord)
    (hpend : r.state = TaskState.pending)
    (h0 : env.login 0 = false) (h1 : env.login 1 = true)
    (hchk : env.check = CheckResult.num 37) (hdrv : env.driverFails = false) :
    handleKeyProxyTask MAX_LOGIN_RETRIES PROFILE_CLEANUP_ON_FAILURE env
      the_key proxy (some r) log0 =
      ⟨some ⟨TaskState.success, r.retry_count, 37⟩, log0, 2, 1, false⟩ := by
  simp [handleKeyProxyTask, initializeCNTPTask, getCNTPTaskState,
    updateCNTPTaskState, MAX_LOGIN_RETRIES, loginLoop,
    hpend, h0, h1, hchk, hdrv]

/-- Witness for C3: login = (first call false, later calls true), check 37. -/
theorem handleKeyProxyTask_login_second_try_success_witness :
    (TaskState.pending = TaskState.pending ∧
      (fun n => Nat.ble 1 n) 0 = false ∧ (fun n => Nat.ble 1 n) 1 = true) ∧
    handleKeyProxyTask MAX_LOGIN_RETRIES PROFILE_CLEANUP_ON_FAILURE
      ⟨fun n => Nat.ble 1 n, CheckResult.num 37, false⟩ "key1" "host:1"
      (some ⟨TaskState.pending, 0, 0⟩) [] =
      ⟨some ⟨TaskState.success, 0, 37⟩, [], 2, 1, false⟩ :=
  ⟨⟨rfl, rfl, rfl⟩,
   handleKeyProxyTask_login_second_try_success
     ⟨fun n => Nat.ble 1 n, CheckResult.num 37, false⟩ "key1" "host:1"
     ⟨TaskState.pending, 0, 0⟩ [] rfl rfl rfl rfl rfl⟩

/-! ## CNTP check-value coercion (CNTP.js lines 42-77) and C4 -/

/-- Digit-run value for JS `parseInt`: the leading decimal digits of the
character list, or none when there is no leading digit (NaN). -/
def digitsVal (cs : List Char) : Option Nat :=
  let ds := cs.takeWhile Char.isDigit
  if ds = [] then none
  else some (ds.foldl (fun acc c => acc * 10 + (c.toNat - Char.toNat '0')) 0)

/-- JS `parseInt(s)` on base-10 text: skip leading whitespace, read an
optional sign, then the longest run of decimal digits; no digit means NaN
(modelled as none). -/
def jsParseInt (s : String) : Option Int :=
  let t := s.toList.dropWhile Char.isWhitespace
  match t with
  | '-' :: rest => (digitsVal rest).map (fun n => -(n : Int))
  | '+' :: rest => (digitsVal rest).map (fun n => (n : Int))
  | rest => (digitsVal rest).map (fun n => (n : Int))

/-- `CNTPService.check` value coercion (CNTP.js lines 67-71):
`let point = parseInt(cntpValue); if (isNaN(point)) point = 0; return point`. -/
def cntpCheckPoint (cntpValue : String) : Int :=
  match jsParseInt cntpValue with
  | none => 0
  | some p => p

/-- C4: when the raw check text is the non-numeric string "N/A",
`CNTPService.check` coerces the point to 0 and returns it (not `false`), so
`handleKeyProxyTask` (with login succeeding) marks the row 'success' with
stored point = 0. -/
theorem handleKeyProxyTask_check_nonnumeric_coerced (env : Env)
    (the_key proxy : String) (r : TaskRow) (log0 : List FailRecord)
    (hpend : r.state = TaskState.pending) (h0 : env.login 0 = true)
    (hchk : env.check = CheckResult.num (cntpCheckPoint "N/A"))
    (hdrv : env.driverFails = false) :
    cntpCheckPoint "N/A" = 0 ∧
    handleKeyProxyTask MAX_LOGIN_RETRIES PROFILE_CLEANUP_ON_FAILURE env
      the_key proxy (some r) log0 =
      ⟨some ⟨TaskState.success, r.retry_count, 0⟩, log0, 1, 1, false⟩ := by
  have hna : cntpCheckPoint "N/A" = 0 := by decide
  refine ⟨hna, ?_⟩
  rw [hna] at hchk
  simp [handleKeyProxyTask, initializeCNTPTask, getCNTPTaskState,
    updateCNTPTaskState, MAX_LOGIN_RETRIES, loginLoop,
    hpend, h0, hchk, hdrv]

/-- Witness for C4 at a concrete env whose check carries the coerced "N/A". -/
theorem handleKeyProxyTask_check_nonnumeric_coerced_witness :
    (TaskState.pending = TaskState.pending ∧
      (⟨fun _ => true, CheckResult.num (cntpCheckPoint "N/A"), false⟩ :
        Env).check = CheckResult.num (cntpCheckPoint "N/A")) ∧
    (cntpCheckPoint "N/A" = 0 ∧
      handleKeyProxyTask MAX_LOGIN_RETRIES PROFILE_CLEANUP_ON_FAILURE
        ⟨fun _ => true, CheckResult.num (cntpCheckPoint "N/A"), false⟩
        "key1" "host:1" (some ⟨TaskState.pending, 0, 0⟩) [] =
        ⟨some ⟨TaskState.success, 0, 0⟩, [], 1, 1, false⟩) :=
  ⟨⟨rfl, rfl⟩,
   handleKeyProxyTask_check_nonnumeric_coerced
     ⟨fun _ => true, CheckResult.num (cntpCheckPoint "N/A"), false⟩
     "key1" "host:1" ⟨TaskState.pending, 0, 0⟩ [] rfl rfl rfl rfl⟩

/-! ## C8: fatal errors leave the row pending -/

/-- C8: for a non-terminal task, a fatal error thrown during the attempt
(driver/session creation) lands in the catch block: the row is left unchanged
(still 'pending', point unchanged), no failure record is appended, no login or
check call is issued, and the profile directory is deleted exactly when the
cleanup policy flag is set. Stated for either value of the flag. -/
theorem handleKeyProxyTask_fatal_error_leaves_pending (cleanupFlag : Bool)
    (env : Env) (the_key proxy : String) (r : TaskRow)
    (log0 : List FailRecord) (hpend : r.state = TaskState.pending)
    (hdrv : env.driverFails = true) :
    handleKeyProxyTask MAX_LOGIN_RETRIES cleanupFlag env
      the_key proxy (some r) log0 = ⟨some r, log0, 0, 0, cleanupFlag⟩ := by
  simp [handleKeyProxyTask, initializeCNTPTask, getCNTPTaskState,
    hpend, hdrv]

/-- Witness for C8 at a concrete failing-driver env, flag = true. -/
theorem handleKeyProxyTask_fatal_error_leaves_pending_witness :
    (TaskState.pending = TaskState.pending ∧
      (⟨fun _ => true, CheckResult.num 9, true⟩ : Env).driverFails = true) ∧
    handleKeyProxyTask MAX_LOGIN_RETRIES true
      ⟨fun _ => true, CheckResult.num 9, true⟩ "key1" "host:1"
      (some ⟨TaskState.pending, 2, 7⟩) [] =
      ⟨some ⟨TaskState.pending, 2, 7⟩, [], 0, 0, true⟩ :=
  ⟨⟨rfl, rfl⟩,
   handleKeyProxyTask_fatal_error_leaves_pending true
     ⟨fun _ => true, CheckResult.num 9, true⟩ "key1" "host:1"
     ⟨TaskState.pending, 2, 7⟩ [] rfl rfl⟩

/-! ## Proxy validation worker (proxy_handler/worker.js) -/

/-- One per-proxy probe result: `{ proxy, success, fail }` with service-tag
lists (worker.js lines 49-53). -/
structure ProbeResult where
  proxy : String
  success : List String
  fail : List String
deriving DecidableEq, Repr

/-- Outcome of the single HTTP probe `request(options, cb)`: a transport
error, or a response carrying a status code. -/
inductive ProbeOutcome
  | err
  | response (statusCode : Nat)
deriving DecidableEq, Repr

/-- The reject condition of the probe promise (worker.js line 65):
`error || response.statusCode !== 200`. -/
def probeRejects : ProbeOutcome → Bool
  | ProbeOutcome.err => true
  | ProbeOutcome.response statusCode => statusCode != 200

/-- `testProxy` (worker.js lines 48-80): probe CNTP_URL through the proxy;
on a rejected probe push "cntp" to fail, otherwise push "cntp" to success. -/
def testProxy (probe : String → ProbeOutcome) (proxyUrl : String) :
    ProbeResult :=
  if probeRejects (probe proxyUrl) then ⟨proxyUrl, [], ["cntp"]⟩
  else ⟨proxyUrl, ["cntp"], []⟩

/-- The worker's message handler (worker.js lines 83-90):
`Promise.all(data.proxies.map(proxy => testProxy(proxy)))`. -/
def workerRun (probe : String → ProbeOutcome) (proxies : List String) :
    List ProbeResult :=
  proxies.map (testProxy probe)

/-! ## C10: probe-result tag invariant -/

/-- C10: every `testProxy` result carries the input proxy string, and exactly
one of its two tag lists is the singleton ["cntp"] while the other is empty —
success = ["cntp"] exactly on HTTP 200, fail = ["cntp"] otherwise; never both
non-empty, never both empty. -/
theorem testProxy_tag_invariant (probe : String → ProbeOutcome)
    (proxyUrl : String) :
    (testProxy probe proxyUrl).proxy = proxyUrl ∧
    (((testProxy probe proxyUrl).success = ["cntp"] ∧
        (testProxy probe proxyUrl).fail = []) ∨
      ((testProxy probe proxyUrl).success = [] ∧
        (testProxy probe proxyUrl).fail = ["cntp"])) ∧
    ((testProxy probe proxyUrl).success = ["cntp"] ↔
      probe proxyUrl = ProbeOutcome.response 200) := by
  unfold testProxy probeRejects
  rcases h : probe proxyUrl with _ | statusCode
  · simp
  · by_cases h200 : statusCode = 200 <;> simp [h200]

/-! ## Validator pool (assign_proxy.js "main" half, lines 138-254) -/

/-- `chunkArray` (assign_proxy.js lines 186-192): slice the array into
consecutive chunks of `chunkSize`. The JS loop never runs with
chunkSize = 0 (the caller passes PROXY_CHUNK_SIZE = 10); that branch is
given the empty value here only to make the recursion total. -/
def chunkArray (arr : List α) (chunkSize : Nat) : List (List α) :=
  if h : arr.length = 0 ∨ chunkSize = 0 then []
  else arr.take chunkSize :: chunkArray (arr.drop chunkSize) chunkSize
termination_by arr.length
decreasing_by
  push_neg at h
  simp only [List.length_drop]
  omega

/-- Unfolding equation for `chunkArray` on a non-empty list. -/
theorem chunkArray_cons (arr : List α) (n : Nat) (h1 : arr.length ≠ 0)
    (h2 : n ≠ 0) :
    chunkArray arr n = arr.take n :: chunkArray (arr.drop n) n := by
  rw [chunkArray]
  simp [h1, h2]

/-- `chunkArray` on the empty list. -/
theorem chunkArray_nil (n : Nat) : chunkArray ([] : List α) n = [] := by
  rw [chunkArray]
  simp

/-- Concatenating the chunks gives back the input list. -/
theorem chunkArray_flatten (n : Nat) (hn : n ≠ 0) (arr : List α) :
    (chunkArray arr n).flatten = arr := by
  by_cases h : arr.length = 0
  · rw [List.length_eq_zero] at h
    subst h
    rw [chunkArray_nil]
    rfl
  · rw [chunkArray_cons arr n h hn]
    rw [List.flatten_cons, chunkArray_flatten n hn (arr.drop n)]
    exact List.take_append_drop n arr
termination_by arr.length
decreasing_by
  simp only [List.length_drop]
  omega

/-- `Promise.all` over already-settled promises: the list of values when all
are fulfilled, else the first rejection's error. -/
def promiseAll : List (Except ε α) → Except ε (List α)
  | [] => Except.ok []
  | p :: rest =>
    match p with
    | Except.error e => Except.error e
    | Except.ok a => (promiseAll rest).map (fun as => a :: as)

/-- `Promise.all` of fulfilled promises built by mapping `f`. -/
theorem promiseAll_map_ok (f : α → β) (l : List α) :
    promiseAll (l.map (fun c => (Except.ok (f c) : Except ε β))) =
      Except.ok (l.map f) := by
  induction l with
  | nil => rfl
  | cons a l ih => simp [promiseAll, Except.map, ih]

/-- `Promise.all` rejects when some listed promise is rejected. -/
theorem promiseAll_isError (ps : List (Except ε α)) (e : ε)
    (hp : Except.error e ∈ ps) : ∃ e2, promiseAll ps = Except.error e2 := by
  induction ps with
  | nil => cases hp
  | cons p rest ih =>
    rcases List.mem_cons.mp hp with h | h
    · exact ⟨e, by rw [← h]; rfl⟩
    · match p with
      | Except.error e0 => exact ⟨e0, rfl⟩
      | Except.ok a =>
        rcases ih h with ⟨e2, he2⟩
        exact ⟨e2, by simp [promiseAll, Except.map, he2]⟩

/-- Steps 2-5 of `processProxies` (assign_proxy.js lines 208-223): chunk the
input, dispatch one worker per chunk, `Promise.all` the chunk promises, then
flatten all chunk results. The worker behaviour (which may reject, e.g. on a
spawn failure) is a parameter. -/
def poolRun (worker : List String → Except String (List ProbeResult))
    (proxyList : List String) : Except String (List ProbeResult) :=
  let proxyChunks := chunkArray proxyList PROXY_CHUNK_SIZE
  let workerPromises := proxyChunks.map worker
  (promiseAll workerPromises).map List.flatten

/-- `INSERT OR REPLACE INTO filtered_proxies` (lines 240-244): the proxy
column is the primary key, so a same-proxy row is replaced. -/
def insertOrReplace (table : List ProbeResult) (r : ProbeResult) :
    List ProbeResult :=
  (table.filter (fun row => row.proxy ≠ r.proxy)) ++ [r]

/-- `processProxies` (lines 197-252) as its effect on the filtered_proxies
table: only when every worker fulfils is the table truncated
(`DELETE FROM filtered_proxies`, line 229) and rebuilt from the flattened
results; any rejection reaches the catch block, which only logs, leaving the
table untouched. -/
def processProxies (worker : List String → Except String (List ProbeResult))
    (proxyList : List String) (table : List ProbeResult) :
    List ProbeResult :=
  match poolRun worker proxyList with
  | Except.error _ => table
  | Except.ok combinedResults => combinedResults.foldl insertOrReplace []

/-! ## Proxy assignment stage (assign_proxy.js lines 47-61) -/

/-- One key read from the key file (`readKeysFromFile` wraps each line as
`{ key }`). -/
structure KeyRec where
  key : String
deriving DecidableEq, Repr

/-- One assigned proxy entry `{ proxy }` as built on line 56-58. -/
structure AssignedProxy where
  proxy : String
deriving DecidableEq, Repr

/-- One element of the `assignProxiesToKeys` output:
`{ key, proxies }`. -/
structure KeyWithProxies where
  key : String
  proxies : List AssignedProxy
deriving DecidableEq, Repr

/-- `assignProxiesToKeys` (assign_proxy.js lines 47-61): map over the keys in
order; for each, `availableProxies.splice(0, 1)` removes and returns the
first remaining proxy (or nothing when the shared list is exhausted). -/
def assignProxiesToKeys :
    List KeyRec → List ProbeResult → List KeyWithProxies
  | [], _ => []
  | k :: ks, availableProxies =>
    let assignedProxies := availableProxies.take 1
    ⟨k.key, assignedProxies.map (fun p => ⟨p.proxy⟩)⟩ ::
      assignProxiesToKeys ks (availableProxies.drop 1)

/-! ## Work scheduler (automationManager.js run, lines 50-70) -/

/-- Result of one scheduled unit after the per-unit catch attached on line 58
(`.catch(e => logger.error(...))`): a fulfilled unit, or a rejection
converted into a logged error. -/
inductive UnitResult
  | done
  | loggedError (msg : String)
deriving DecidableEq, Repr

/-- The per-unit catch: it never rethrows. -/
def catchUnit : Except String Unit → UnitResult
  | Except.ok _ => UnitResult.done
  | Except.error e => UnitResult.loggedError e

/-- The launch loop of `run` (lines 55-62) against a logical millisecond
clock: at time t the next pair's unit starts (with its catch attached), then
the loop sleeps `staggerDelay` before starting the next pair. Returns each
unit's start time and caught result, in listing order. -/
def runLoop (staggerDelay : Nat) :
    List (Except String Unit) → Nat → List (Nat × UnitResult)
  | [], _ => []
  | u :: us, t =>
    (t, catchUnit u) :: runLoop staggerDelay us (t + staggerDelay)

/-- `run` (lines 50-70): start every unit staggered from time 0, then
`Promise.all` the caught promises; since every unit is caught, the batch
resolves with one entry per pair. -/
def run (staggerDelay : Nat) (units : List (Except String Unit)) :
    List (Nat × UnitResult) :=
  runLoop staggerDelay units 0

/-! ## C5: pool fan-out/fan-in on 23 proxies -/

/-- Helper: `testProxy` preserves the probed proxy string. -/
theorem testProxy_proxy_eq (probe : String → ProbeOutcome) (p : String) :
    (testProxy probe p).proxy = p := by
  unfold testProxy
  split <;> rfl

/-- C5: on a 23-proxy input with chunk size 10, the pool dispatches exactly 3
chunks of sizes 10, 10, 3 (one worker each), and the concatenated result list
has exactly 23 entries whose proxy values are, position for position, the
input proxies — hence equal as a set with each input proxy exactly once. -/
theorem poolRun_23_proxies (probe : String → ProbeOutcome)
    (l : List String) (h : l.length = 23) :
    (chunkArray l PROXY_CHUNK_SIZE).map List.length = [10, 10, 3] ∧
    poolRun (fun c => Except.ok (workerRun probe c)) l =
      Except.ok (((chunkArray l PROXY_CHUNK_SIZE).map
        (workerRun probe)).flatten) ∧
    (((chunkArray l PROXY_CHUNK_SIZE).map (workerRun probe)).flatten).length
      = 23 ∧
    (((chunkArray l PROXY_CHUNK_SIZE).map (workerRun probe)).flatten).map
      ProbeResult.proxy = l := by
  have len1 : (l.drop 10).length = 13 := by simp [h]
  have len2 : ((l.drop 10).drop 10).length = 3 := by simp [h]
  have len3 : (((l.drop 10).drop 10).drop 10).length = 0 := by simp [h]
  have e1 : chunkArray l 10 = l.take 10 :: chunkArray (l.drop 10) 10 :=
    chunkArray_cons l 10 (by omega) (by omega)
  have e2 : chunkArray (l.drop 10) 10 =
      (l.drop 10).take 10 :: chunkArray ((l.drop 10).drop 10) 10 :=
    chunkArray_cons _ 10 (by omega) (by omega)
  have e3 : chunkArray ((l.drop 10).drop 10) 10 =
      ((l.drop 10).drop 10).take 10 ::
        chunkArray (((l.drop 10).drop 10).drop 10) 10 :=
    chunkArray_cons _ 10 (by omega) (by omega)
  have e4 : chunkArray (((l.drop 10).drop 10).drop 10) 10 = [] := by
    rw [List.length_eq_zero] at len3
    rw [len3, chunkArray_nil]
  have hmapproxy :
      (((chunkArray l PROXY_CHUNK_SIZE).map (workerRun probe)).flatten).map
        ProbeResult.proxy = l := by
    unfold workerRun
    rw [← List.map_flatten, List.map_map]
    have hcomp : (ProbeResult.proxy ∘ testProxy probe) = id := by
      funext p
      exact testProxy_proxy_eq probe p
    rw [hcomp, List.map_id]
    exact chunkArray_flatten PROXY_CHUNK_SIZE (by decide) l
  refine ⟨?_, ?_, ?_, hmapproxy⟩
  · show (chunkArray l 10).map List.length = [10, 10, 3]
    rw [e1, e2, e3, e4]
    simp [List.length_take, h, len1, len2]
  · show Except.map List.flatten
        (promiseAll ((chunkArray l PROXY_CHUNK_SIZE).map
          (fun c => Except.ok (workerRun probe c)))) =
      Except.ok (((chunkArray l PROXY_CHUNK_SIZE).map
        (workerRun probe)).flatten)
    rw [promiseAll_map_ok]
    rfl
  · have hlen := congrArg List.length hmapproxy
    rw [List.length_map] at hlen
    exact hlen.trans h

/-- Witness for C5 at a concrete 23-proxy list and an always-200 probe. -/
theorem poolRun_23_proxies_witness :
    (["p01", "p02", "p03", "p04", "p05", "p06", "p07", "p08", "p09", "p10",
      "p11", "p12", "p13", "p14", "p15", "p16", "p17", "p18", "p19", "p20",
      "p21", "p22", "p23"] : List String).length = 23 ∧
    ((chunkArray ["p01", "p02", "p03", "p04", "p05", "p06", "p07", "p08",
        "p09", "p10", "p11", "p12", "p13", "p14", "p15", "p16", "p17", "p18",
        "p19", "p20", "p21", "p22", "p23"] PROXY_CHUNK_SIZE).map List.length
      = [10, 10, 3] ∧
    poolRun (fun c =>
        Except.ok (workerRun (fun _ => ProbeOutcome.response 200) c))
      ["p01", "p02", "p03", "p04", "p05", "p06", "p07", "p08", "p09", "p10",
       "p11", "p12", "p13", "p14", "p15", "p16", "p17", "p18", "p19", "p20",
       "p21", "p22", "p23"] =
      Except.ok (((chunkArray ["p01", "p02", "p03", "p04", "p05", "p06",
        "p07", "p08", "p09", "p10", "p11", "p12", "p13", "p14", "p15", "p16",
        "p17", "p18", "p19", "p20", "p21", "p22", "p23"]
          PROXY_CHUNK_SIZE).map
        (workerRun (fun _ => ProbeOutcome.response 200))).flatten) ∧
    (((chunkArray ["p01", "p02", "p03", "p04", "p05", "p06", "p07", "p08",
        "p09", "p10", "p11", "p12", "p13", "p14", "p15", "p16", "p17", "p18",
        "p19", "p20", "p21", "p22", "p23"] PROXY_CHUNK_SIZE).map
      (workerRun (fun _ => ProbeOutcome.response 200))).flatten).length
      = 23 ∧
    (((chunkArray ["p01", "p02", "p03", "p04", "p05", "p06", "p07", "p08",
        "p09", "p10", "p11", "p12", "p13", "p14", "p15", "p16", "p17", "p18",
        "p19", "p20", "p21", "p22", "p23"] PROXY_CHUNK_SIZE).map
      (workerRun (fun _ => ProbeOutcome.response 200))).flatten).map
      ProbeResult.proxy =
      ["p01", "p02", "p03", "p04", "p05", "p06", "p07", "p08", "p09", "p10",
       "p11", "p12", "p13", "p14", "p15", "p16", "p17", "p18", "p19", "p20",
       "p21", "p22", "p23"]) :=
  ⟨rfl,
   poolRun_23_proxies (fun _ => ProbeOutcome.response 200)
     ["p01", "p02", "p03", "p04", "p05", "p06", "p07", "p08", "p09", "p10",
      "p11", "p12", "p13", "p14", "p15", "p16", "p17", "p18", "p19", "p20",
      "p21", "p22", "p23"] rfl⟩

/-! ## C7: a rejected worker leaves the table untouched -/

/-- C7: when some dispatched chunk's worker promise rejects, `Promise.all`
rejects, the catch block only logs, and the filtered_proxies table is left
unmodified — truncation and rewrite happen only after all workers fulfil. -/
theorem processProxies_worker_error_table_unchanged
    (worker : List String → Except String (List ProbeResult))
    (proxyList : List String) (table : List ProbeResult)
    (c : List String) (e : String)
    (hc : c ∈ chunkArray proxyList PROXY_CHUNK_SIZE)
    (he : worker c = Except.error e) :
    processProxies worker proxyList table = table := by
  have hmem : Except.error e ∈
      (chunkArray proxyList PROXY_CHUNK_SIZE).map worker := by
    rw [← he]
    exact List.mem_map_of_mem worker hc
  rcases promiseAll_isError _ e hmem with ⟨e2, he2⟩
  have hpool : poolRun worker proxyList = Except.error e2 := by
    unfold poolRun
    simp only [he2, Except.map]
  unfold processProxies
  rw [hpool]

/-- Witness for C7: one chunk, whose worker rejects; the table survives. -/
theorem processProxies_worker_error_table_unchanged_witness :
    ((["a"] : List String) ∈ chunkArray ["a"] PROXY_CHUNK_SIZE ∧
      (fun _ : List String =>
        (Except.error "boom" : Except String (List ProbeResult))) ["a"] =
        Except.error "boom") ∧
    processProxies
      (fun _ => (Except.error "boom" : Except String (List ProbeResult)))
      ["a"] [⟨"old", ["cntp"], []⟩] = [⟨"old", ["cntp"], []⟩] :=
  have hch : chunkArray (["a"] : List String) PROXY_CHUNK_SIZE = [["a"]] := by
    rw [show PROXY_CHUNK_SIZE = 10 from rfl,
      chunkArray_cons ["a"] 10 (by decide) (by decide)]
    simp [chunkArray_nil]
  have hc : (["a"] : List String) ∈ chunkArray ["a"] PROXY_CHUNK_SIZE := by
    rw [hch]
    exact List.mem_singleton.mpr rfl
  ⟨⟨hc, rfl⟩,
   processProxies_worker_error_table_unchanged
     (fun _ => Except.error "boom") ["a"] [⟨"old", ["cntp"], []⟩]
     ["a"] "boom" hc rfl⟩

/-! ## C6: greedy one-proxy-per-key assignment -/

/-- C6: with 5 keys and 3 validated proxies (default bound: 1 proxy per key),
the first three keys receive, in input order, exactly one proxy each and keys
4 and 5 receive the empty list; when the proxies are pairwise distinct no
proxy appears in two different keys' assignments. -/
theorem assignProxiesToKeys_five_keys_three_proxies
    (k1 k2 k3 k4 k5 : KeyRec) (p1 p2 p3 : ProbeResult)
    (h12 : p1.proxy ≠ p2.proxy) (h13 : p1.proxy ≠ p3.proxy)
    (h23 : p2.proxy ≠ p3.proxy) :
    assignProxiesToKeys [k1, k2, k3, k4, k5] [p1, p2, p3] =
      [⟨k1.key, [⟨p1.proxy⟩]⟩, ⟨k2.key, [⟨p2.proxy⟩]⟩,
       ⟨k3.key, [⟨p3.proxy⟩]⟩, ⟨k4.key, []⟩, ⟨k5.key, []⟩] ∧
    List.Pairwise (fun a b => ∀ x ∈ a.proxies, x ∉ b.proxies)
      (assignProxiesToKeys [k1, k2, k3, k4, k5] [p1, p2, p3]) := by
  have heq : assignProxiesToKeys [k1, k2, k3, k4, k5] [p1, p2, p3] =
      [⟨k1.key, [⟨p1.proxy⟩]⟩, ⟨k2.key, [⟨p2.proxy⟩]⟩,
       ⟨k3.key, [⟨p3.proxy⟩]⟩, ⟨k4.key, []⟩, ⟨k5.key, []⟩] := rfl
  refine ⟨heq, ?_⟩
  rw [heq]
  simp [List.pairwise_cons, AssignedProxy.mk.injEq, h12, h13, h23]

/-- Witness for C6 at concrete keys and pairwise distinct proxies. -/
theorem assignProxiesToKeys_five_keys_three_proxies_witness :
    (("x1" : String) ≠ "x2" ∧ ("x1" : String) ≠ "x3" ∧
      ("x2" : String) ≠ "x3") ∧
    (assignProxiesToKeys [⟨"k1"⟩, ⟨"k2"⟩, ⟨"k3"⟩, ⟨"k4"⟩, ⟨"k5"⟩]
        [⟨"x1", ["cntp"], []⟩, ⟨"x2", ["cntp"], []⟩, ⟨"x3", [], ["cntp"]⟩] =
      [⟨"k1", [⟨"x1"⟩]⟩, ⟨"k2", [⟨"x2"⟩]⟩, ⟨"k3", [⟨"x3"⟩]⟩,
       ⟨"k4", []⟩, ⟨"k5", []⟩] ∧
    List.Pairwise (fun a b => ∀ x ∈ a.proxies, x ∉ b.proxies)
      (assignProxiesToKeys [⟨"k1"⟩, ⟨"k2"⟩, ⟨"k3"⟩, ⟨"k4"⟩, ⟨"k5"⟩]
        [⟨"x1", ["cntp"], []⟩, ⟨"x2", ["cntp"], []⟩,
         ⟨"x3", [], ["cntp"]⟩])) :=
  ⟨⟨by decide, by decide, by decide⟩,
   assignProxiesToKeys_five_keys_three_proxies
     ⟨"k1"⟩ ⟨"k2"⟩ ⟨"k3"⟩ ⟨"k4"⟩ ⟨"k5"⟩
     ⟨"x1", ["cntp"], []⟩ ⟨"x2", ["cntp"], []⟩ ⟨"x3", [], ["cntp"]⟩
     (by decide) (by decide) (by decide)⟩

/-! ## C9: staggered starts, per-unit error isolation -/

/-- C9: for 3 pairs and stagger delay D, the units start in listing order at
logical times 0, D, 2D (so the second starts no earlier than D after the
first and the third no earlier than 2D), and even when the second unit
rejects, all three appear in the jointly awaited batch — the rejection is
caught per unit (logged), never aborting the others. -/
theorem run_stagger_and_isolation (D : Nat) (u1 u3 : Except String Unit)
    (e : String) :
    run D [u1, Except.error e, u3] =
      [(0, catchUnit u1), (D, UnitResult.loggedError e),
       (2 * D, catchUnit u3)] ∧
    (run D [u1, Except.error e, u3]).map Prod.fst = [0, D, 2 * D] ∧
    (run D [u1, Except.error e, u3]).length = 3 := by
  have h : run D [u1, Except.error e, u3] =
      [(0, catchUnit u1), (D, UnitResult.loggedError e),
       (2 * D, catchUnit u3)] := by
    simp [run, runLoop, catchUnit, two_mul]
  exact ⟨h, by rw [h]; rfl, by rw [h]; rfl⟩

end Cntp
